import Mathlib

/-!
Shallow embedding of the data-analysis assistant
(`src/app.py`, `src/herramientas.py`) and proofs of the specification
claims about it.

Conventions of the embedding:
* Python strings are Lean `String` / `List Char`.
* The pandas `DataFrame` is modelled as a header (column names), one
  dtype string per column, and row-major cells where `none` stands for
  a null/NaN cell.
* Remote or floating-point computations (the hosted language-model
  call, `DataFrame.describe`, `DataFrame.corr`) cannot be evaluated
  inside the embedding; the functions that consume their output take
  them as explicit function arguments, so every theorem quantifies
  over their behaviour.
-/

namespace AsistenteDatos

/-! ## String utilities (substring test, Python `str.lower`) -/

/-- Boolean prefix test on character lists. -/
def es_prefijo : List Char → List Char → Bool
  | [], _ => true
  | _ :: _, [] => false
  | a :: as, b :: bs => a == b && es_prefijo as bs

/-- Boolean substring containment on character lists: does `pat` occur
contiguously anywhere in the subject list?  Models Python's `in` on
strings. -/
def contiene_lista (pat : List Char) : List Char → Bool
  | [] => es_prefijo pat []
  | c :: rest => es_prefijo pat (c :: rest) || contiene_lista pat rest

/-- Python `pat in s` for strings. -/
def contiene (s pat : String) : Bool :=
  contiene_lista pat.data s.data

/-- Models Python `str.lower` on one character, for the ASCII range and
the Latin-1 uppercase letters (U+00C0 to U+00DE minus the multiplication
sign U+00D7, which Python lowers by adding 32).  Characters outside
these ranges are left unchanged; the source only ever tests for the
lowercase keywords "correl" and "relación", whose letters lie in these
ranges. -/
def minuscula_char (c : Char) : Char :=
  let n := c.toNat
  if 65 ≤ n ∧ n ≤ 90 then Char.ofNat (n + 32)
  else if (192 ≤ n ∧ n ≤ 222) ∧ n ≠ 215 then Char.ofNat (n + 32)
  else c

/-- Python `str.lower`, per-character (see `minuscula_char`). -/
def minusculas (s : String) : String :=
  String.mk (s.data.map minuscula_char)

/-! ## Removal of all occurrences of a pattern (Python `str.replace(pat, "")`)

`quitar_aux` scans left to right: at each position, if the (non-empty)
pattern `p :: pt` starts here, it is dropped and the scan resumes after
it, exactly like Python's `str.replace` with an empty replacement.
The extra fuel argument (instantiated with the subject's length) makes
the definition structurally recursive, hence computable by `decide`. -/
def quitar_aux (p : Char) (pt : List Char) : Nat → List Char → List Char
  | _, [] => []
  | 0, s => s
  | fuel + 1, c :: rest =>
    if es_prefijo (p :: pt) (c :: rest) then
      quitar_aux p pt fuel (rest.drop pt.length)
    else
      c :: quitar_aux p pt fuel rest

/-- Python `s.replace(pat, "")` for a non-empty pattern `p :: pt`. -/
def quitar_ocurrencias (p : Char) (pt : List Char) (s : List Char) : List Char :=
  quitar_aux p pt s.length s

/-! ## The DataFrame model -/

/-- Model of the loaded pandas `DataFrame`: column names, a dtype string
per column, and row-major cells (`none` is a null/NaN cell). -/
structure DataFrame where
  columnas : List String
  tipos : List String
  filas : List (List (Option String))
deriving DecidableEq

/-- Python `df.shape`: `(number of rows, number of columns)`. -/
def DataFrame.shape (df : DataFrame) : Nat × Nat :=
  (df.filas.length, df.columnas.length)

/-- Number of null cells in column `j` (pandas `df.isnull().sum()` for
one column). -/
def conteo_nulos_col (df : DataFrame) (j : Nat) : Nat :=
  (df.filas.filter (fun fila => (fila.getD j (some "")).isNone)).length

/-- Count of rows equal to some earlier row: pandas
`df.duplicated().sum()`. -/
def conteo_duplicados (df : DataFrame) : Nat :=
  (go df.filas []).length
where
  /-- Returns the duplicated rows, threading the rows already seen. -/
  go : List (List (Option String)) → List (List (Option String)) →
      List (List (Option String))
  | [], _ => []
  | fila :: resto, vistas =>
    if fila ∈ vistas then fila :: go resto (fila :: vistas)
    else go resto (fila :: vistas)

/-- The per-column description string built in `generar_grafico` and
`generar_insights`: one line `- col (dtype)` per column, joined by
newlines. -/
def columnas_info (df : DataFrame) : String :=
  String.intercalate "\n"
    ((df.columnas.zip df.tipos).map
      (fun par => "- " ++ par.1 ++ " (" ++ par.2 ++ ")"))

/-- Simple two-column markdown pipe-table renderer, modelling
`pd.DataFrame({...}).to_markdown(index=False)` for the dtype and null
tables of `informacion_df` (the exact cell padding that `tabulate`
performs is abstracted; the header and the row contents are kept). -/
def tabla_md_2 (titulo1 titulo2 : String) (filas : List (String × String)) : String :=
  "| " ++ titulo1 ++ " | " ++ titulo2 ++ " |\n|---|---|" ++
    String.join (filas.map (fun par => "\n| " ++ par.1 ++ " | " ++ par.2 ++ " |"))

/-! ## Prompt templates and chains

`herramientas.py` builds a `PromptTemplate` inside each of the four
LLM-backed tools and pipes it into a `StrOutputParser`; `app.py`
constructs one `ChatGroq` completion client.  A chain is modelled as
the list of its components. -/

/-- A langchain `PromptTemplate`: static template text plus its
declared input variables. -/
structure Plantilla where
  template : String
  input_variables : List String
deriving DecidableEq

/-- One component of a runnable chain: a prompt template, a completion
client (`ChatGroq(model, temperature)`), or a `StrOutputParser`. -/
inductive ComponenteCadena where
  | prompt (p : Plantilla)
  | llamada_llm (modelo : String) (temperatura : Nat)
  | salida_str
deriving DecidableEq

/-- A chain is the list of its components in order. -/
def Cadena := List ComponenteCadena

/-- Is this component a call to the hosted completion client? -/
def es_llamada_llm : ComponenteCadena → Bool
  | .llamada_llm _ _ => true
  | _ => false

/-- The `ChatGroq` completion client configured in `app.py`
(fixed model identifier, temperature 0). -/
def llm_app : ComponenteCadena :=
  .llamada_llm "llama-3.3-70b-versatile" 0

/-- Template built inside `informacion_df`. -/
def plantilla_informacion : Plantilla :=
  { template := "\n        Eres un analista de datos senior y debes generar una narrativa profesional.\n\n        Datos del dataset:\n        - Pregunta del usuario: {pregunta}\n        - Filas: {n_filas}\n        - Columnas: {n_columnas}\n\n        Escribe un texto que incluya:\n        1. Una explicación general del dataset\n        2. Qué análisis son relevantes\n        3. Recomendaciones de preprocesamiento\n        4. Posibles insights\n\n        No repitas tablas ni dimensiones.\n        "
    input_variables := ["pregunta", "n_filas", "n_columnas"] }

/-- Template built inside `resumen_estadistico`. -/
def plantilla_resumen : Plantilla :=
  { template := "\n        Eres un analista experto. Interpreta estas estadísticas:\n\n        Pregunta: {pregunta}\n\n        Estadísticas:\n        {resumen}\n\n        Escribe un informe que incluya:\n        - Interpretación columna por columna\n        - Señales de outliers\n        - Variabilidad\n        - Sugerencias de análisis posteriores\n        "
    input_variables := ["pregunta", "resumen"] }

/-- Template built inside `generar_grafico`. -/
def plantilla_grafico : Plantilla :=
  { template := "\n        Eres un experto en visualización. Devuelve SOLO código Python.\n\n        Solicitud del usuario:\n        \"{pregunta}\"\n\n        Dataset:\n        Filas: {num_filas}\n        Columnas:\n        {columnas}\n\n        Reglas:\n        - Usar matplotlib y seaborn\n        - sns.set_theme()\n        - figsize=(10,5)\n        - Título y etiquetas\n        - plt.show()\n\n        Código:\n        "
    input_variables := ["pregunta", "columnas", "num_filas"] }

/-- Template built inside `generar_insights`. -/
def plantilla_insights : Plantilla :=
  { template := "\n        Eres un analista senior. Responde a la pregunta: {pregunta}\n\n        Columnas y tipos:\n        {columnas}\n\n        Genera un informe con:\n        1. Patrones principales\n        2. Tendencias\n        3. Outliers relevantes\n        4. Variables más importantes\n        5. Recomendaciones accionables\n        "
    input_variables := ["pregunta", "columnas"] }

/-- Every `PromptTemplate` defined by the program (the construction
sites in `herramientas.py`; `app.py` defines none). -/
def plantillas : List Plantilla :=
  [plantilla_informacion, plantilla_resumen, plantilla_grafico, plantilla_insights]

/-- The chain `plantilla | StrOutputParser()` built in
`informacion_df` (herramientas.py line 71). -/
def cadena_informacion : Cadena :=
  [.prompt plantilla_informacion, .salida_str]

/-- The chain `plantilla | StrOutputParser()` built in
`resumen_estadistico` (herramientas.py line 135). -/
def cadena_resumen : Cadena :=
  [.prompt plantilla_resumen, .salida_str]

/-- The chain `plantilla | StrOutputParser()` built in
`generar_grafico` (herramientas.py line 176). -/
def cadena_grafico : Cadena :=
  [.prompt plantilla_grafico, .salida_str]

/-- The chain `plantilla | StrOutputParser()` built in
`generar_insights` (herramientas.py line 250). -/
def cadena_insights : Cadena :=
  [.prompt plantilla_insights, .salida_str]

/-- The direct-question path of `app.py` (`preguntar_llm`) calls
`llm.invoke` on an inline-built prompt string: its chain is the bare
completion client, with no template component. -/
def cadena_pregunta_directa : Cadena :=
  [llm_app]

/-- The inline prompt text that `app.py` builds for the
direct-question path (no `PromptTemplate` involved). -/
def prompt_directo (columnas : List String) (pregunta : String) : String :=
  "Eres un analista experto. \n                    Responde la siguiente pregunta usando este DataFrame:\n                    Columnas: " ++
    toString columnas ++ "\n                    Pregunta: " ++ pregunta

/-! ## The five tools of `herramientas.py`

The semantics of invoking a chain is external (it would involve the
remote model); the tools therefore receive the chain-invocation
function `invocar : Cadena -> bindings -> String` as an argument, and
every theorem quantifies over it.  The report tools are embedded with
explicit state passing: they return the produced text together with
the dataframe observable after the call. -/

/-- The bindings a chain is invoked with: association list from input
variable name to value. -/
def Vinculos := List (String × String)

/-- Tool 1, `informacion_df` (herramientas.py lines 18-101): builds the
dtype/null/duplicate tables, invokes its chain for the narrative, and
returns the markdown report.  The string is the f-string of the
source, grouped around the interpolated values. -/
def informacion_df (invocar : Cadena → Vinculos → String)
    (pregunta : String) (df : DataFrame) : String × DataFrame :=
  let n_filas := (DataFrame.shape df).1
  let n_columnas := (DataFrame.shape df).2
  let tabla_tipos := tabla_md_2 "Columna" "Tipo de dato" (df.columnas.zip df.tipos)
  let tabla_nulos := tabla_md_2 "Columna" "Nulos"
    ((List.range df.columnas.length).map
      (fun j => (df.columnas.getD j "", toString (conteo_nulos_col df j))))
  let duplicados := conteo_duplicados df
  let narrativa := invocar cadena_informacion
    [("pregunta", pregunta), ("n_filas", toString n_filas),
     ("n_columnas", toString n_columnas)]
  ("\n# 📊 Informe General del Dataset\n\n## Resumen General\n| Métrica | Valor |\n|--------|-------|\n" ++
    (("| Filas | " ++ toString n_filas ++ " |") ++
      ("\n" ++ ("| Columnas | " ++ toString n_columnas ++ " |") ++
        ("\n| Duplicados | " ++ toString duplicados ++ " |\n\n---\n\n## Tipos de Datos\n" ++
          tabla_tipos ++ "\n\n---\n\n## Valores Nulos\n" ++ tabla_nulos ++
          "\n\n---\n\n## Narrativa Profesional\n" ++ narrativa ++ "\n"))), df)

/-- Tool 2, `resumen_estadistico` (herramientas.py lines 107-136).
`df.describe(include="number")` is floating-point, so its rendered
text is received as the function argument `describe_texto`; the tool
invokes its chain on the question and that text. -/
def resumen_estadistico (invocar : Cadena → Vinculos → String)
    (describe_texto : DataFrame → String)
    (pregunta : String) (df : DataFrame) : String × DataFrame :=
  let resumen := describe_texto df
  (invocar cadena_resumen [("pregunta", pregunta), ("resumen", resumen)], df)

/-- A value bound in the globals dictionary handed to `exec`: the
loaded dataset, the `matplotlib.pyplot` module, or the `seaborn`
module. -/
inductive Ligado where
  | dataset (df : DataFrame)
  | modulo_plt
  | modulo_sns
deriving DecidableEq

/-- The record of one `exec` call in `generar_grafico`: the script text
executed and the globals dictionary supplied to it (name-to-value
bindings in construction order). -/
structure LlamadaExec where
  script : List Char
  entorno : List (String × Ligado)
deriving DecidableEq

/-- The code-fence stripping of `generar_grafico` (herramientas.py
line 183): `script.replace("\x60\x60\x60python", "").replace("\x60\x60\x60", "")`. -/
def limpiar_script (s : List Char) : List Char :=
  quitar_ocurrencias '`' "``".data (quitar_ocurrencias '`' "``python".data s)

/-- Tool 3, `generar_grafico` (herramientas.py lines 142-188): the raw
completion text produced by its chain is the argument `texto_llm`; the
tool strips code fences from it (the only transformation), executes it
with globals `{df, plt, sns}`, and returns the empty string. -/
def generar_grafico (texto_llm : String) (df : DataFrame) :
    LlamadaExec × String :=
  ({ script := limpiar_script texto_llm.data
     entorno := [("df", .dataset df), ("plt", .modulo_plt), ("sns", .modulo_sns)] }, "")

/-- Result of `ejecutar_python_inteligente`: either the directly
computed correlation answer, or an invocation of the
`PythonAstREPLTool` evaluator on the given code text. -/
inductive RespuestaPython where
  | correlacion (texto : String)
  | repl (codigo : String)
deriving DecidableEq

/-- Tool 4, `ejecutar_python_inteligente` (herramientas.py lines
194-215): lowercases the question; if it contains "correl" or
"relación" it returns the rendered markdown of
`df.corr(numeric_only=True)` directly (the numeric correlation matrix
is floating-point, so its markdown rendering is the argument
`corr_md`); otherwise it hands the question text to the AST REPL. -/
def ejecutar_python_inteligente (corr_md : DataFrame → String)
    (pregunta : String) (df : DataFrame) : RespuestaPython :=
  let pregunta_lower := minusculas pregunta
  if contiene pregunta_lower "correl" || contiene pregunta_lower "relación" then
    .correlacion ("\n# 🔎 Análisis de correlación\n\n" ++ corr_md df ++ "\n")
  else
    .repl pregunta

/-- The value `ejecutar_python_inteligente` returns to its caller,
given the evaluator semantics `repl_run` of `PythonAstREPLTool.run`
(an external library): the correlation text in the first branch, the
evaluator's result in the second. -/
def responder_python (repl_run : String → String)
    (corr_md : DataFrame → String)
    (pregunta : String) (df : DataFrame) : String :=
  match ejecutar_python_inteligente corr_md pregunta df with
  | .correlacion texto => texto
  | .repl codigo => repl_run codigo

/-- Tool 5, `generar_insights` (herramientas.py lines 221-254). -/
def generar_insights (invocar : Cadena → Vinculos → String)
    (pregunta : String) (df : DataFrame) : String × DataFrame :=
  (invocar cadena_insights
    [("pregunta", pregunta), ("columnas", columnas_info df)], df)

/-! ## Tool registry and dispatch (`app.py`) -/

/-- Identity of each of the five registered tools
(`crear_herramientas`, herramientas.py lines 260-299). -/
inductive IdHerramienta where
  | informaciones_df
  | resumen_est
  | generar_graf
  | herramienta_python
  | informe_insights
deriving DecidableEq

/-- `crear_herramientas(df)` followed by
`tool_dict = {t.name: t for t in tools}` in `app.py` line 59: the
name-to-handler mapping, as an association list in registration
order. -/
def tool_dict : List (String × IdHerramienta) :=
  [("Informaciones DF", .informaciones_df),
   ("Resumen Estadístico", .resumen_est),
   ("Generar Gráfico", .generar_graf),
   ("Herramienta Python", .herramienta_python),
   ("Informe de Insights", .informe_insights)]

/-- `tool_dict.get(nombre)`: the registry lookup. -/
def buscar (d : List (String × IdHerramienta)) (nombre : String) :
    Option IdHerramienta :=
  (d.find? (fun par => par.1 == nombre)).map (fun par => par.2)

/-- One observable action of a button handler. -/
inductive Accion where
  | ejecutar_herramienta (t : IdHerramienta) (pregunta : String)
deriving DecidableEq

/-- The dispatch pattern of every button handler in `app.py`
(lines 76-79 etc.): `tool = tool_dict.get(name); if tool:
tool.run({"pregunta": ...})` — runs the tool when found, silently does
nothing otherwise. -/
def manejar_boton (nombre pregunta : String) : List Accion :=
  match buscar tool_dict nombre with
  | some t => [.ejecutar_herramienta t pregunta]
  | none => []

/-! ## Fixtures used by the witness theorems -/

/-- Is this chain component a prompt template? -/
def es_prompt : ComponenteCadena → Bool
  | .prompt _ => true
  | _ => false

/-- A small concrete dataset used to instantiate theorems. -/
def df0 : DataFrame :=
  { columnas := ["precio", "tamano"]
    tipos := ["int64", "float64"]
    filas := [[some "1", some "2.5"], [some "3", none]] }

/-- A concrete stand-in for the correlation-matrix markdown renderer. -/
def corr_md0 : DataFrame → String := fun _ => "| precio | 1.0 |"

/-- A concrete stand-in for the `PythonAstREPLTool.run` evaluator: it
evaluates the expression `2+2` to `4`. -/
def repl0 : String → String := fun codigo => if codigo = "2+2" then "4" else ""

/-! ## Lemmas about the string utilities -/

theorem es_prefijo_iff (xs : List Char) : ∀ ys,
    es_prefijo xs ys = true ↔ xs <+: ys := by
  induction xs with
  | nil => intro ys; simp [es_prefijo]
  | cons a as ih =>
    intro ys
    cases ys with
    | nil => simp [es_prefijo]
    | cons b bs => simp [es_prefijo, ih, List.cons_prefix_cons]

theorem es_prefijo_append (xs t : List Char) :
    es_prefijo xs (xs ++ t) = true := by
  rw [es_prefijo_iff]
  exact List.prefix_append xs t

theorem es_prefijo_length {xs ys : List Char}
    (h : es_prefijo xs ys = true) : xs.length ≤ ys.length := by
  rw [es_prefijo_iff] at h
  exact h.length_le

theorem contiene_lista_of_prefijo {pat s : List Char}
    (h : es_prefijo pat s = true) : contiene_lista pat s = true := by
  cases s with
  | nil => simpa [contiene_lista] using h
  | cons c rest => simp [contiene_lista, h]

theorem contiene_lista_append_right {pat t : List Char} (s : List Char)
    (h : contiene_lista pat t = true) :
    contiene_lista pat (s ++ t) = true := by
  induction s with
  | nil => simpa
  | cons c rest ih =>
    simp only [List.cons_append, contiene_lista, Bool.or_eq_true]
    exact Or.inr ih

/-- A string occurs inside any concatenation that has it as a middle
factor. -/
theorem contiene_concat (a b c : String) :
    contiene (a ++ (b ++ c)) b = true := by
  show contiene_lista b.data (a.data ++ (b.data ++ c.data)) = true
  exact contiene_lista_append_right a.data
    (contiene_lista_of_prefijo (es_prefijo_append b.data c.data))

/-- Fuel irrelevance for `quitar_aux`: any fuel at least the subject's
length gives the same result. -/
theorem quitar_aux_congr (p : Char) (pt : List Char) :
    ∀ (f₁ f₂ : Nat) (s : List Char), s.length ≤ f₁ → s.length ≤ f₂ →
      quitar_aux p pt f₁ s = quitar_aux p pt f₂ s := by
  intro f₁
  induction f₁ with
  | zero =>
    intro f₂ s h₁ _
    have hs : s = [] := by
      cases s with
      | nil => rfl
      | cons c r => simp at h₁
    subst hs
    cases f₂ <;> rfl
  | succ f ih =>
    intro f₂ s h₁ h₂
    cases s with
    | nil => cases f₂ <;> rfl
    | cons c rest =>
      cases f₂ with
      | zero => simp at h₂
      | succ g =>
        simp only [List.length_cons, Nat.add_le_add_iff_right] at h₁ h₂
        simp only [quitar_aux]
        by_cases hp : es_prefijo (p :: pt) (c :: rest) = true
        · simp only [hp, if_true]
          have hd : (rest.drop pt.length).length ≤ f := by
            rw [List.length_drop]
            omega
          have hd₂ : (rest.drop pt.length).length ≤ g := by
            rw [List.length_drop]
            omega
          exact ih g _ hd hd₂
        · simp only [hp, if_false, Bool.false_eq_true]
          exact congrArg (c :: ·) (ih g rest h₁ h₂)

/-- Unfolding equation of `quitar_ocurrencias` on a cons cell. -/
theorem quitar_cons (p : Char) (pt : List Char) (c : Char) (rest : List Char) :
    quitar_ocurrencias p pt (c :: rest) =
      if es_prefijo (p :: pt) (c :: rest) then
        quitar_ocurrencias p pt (rest.drop pt.length)
      else c :: quitar_ocurrencias p pt rest := by
  show quitar_aux p pt (rest.length + 1) (c :: rest) = _
  simp only [quitar_aux]
  by_cases hp : es_prefijo (p :: pt) (c :: rest) = true
  · simp only [hp, if_true]
    exact quitar_aux_congr p pt rest.length (rest.drop pt.length).length _
      (by rw [List.length_drop]; omega) le_rfl
  · simp only [hp, if_false, Bool.false_eq_true]
    rfl

/-- Removing a pattern from a string it does not occur in changes
nothing. -/
theorem quitar_sin_ocurrencia (p : Char) (pt : List Char) :
    ∀ s : List Char, contiene_lista (p :: pt) s = false →
      quitar_ocurrencias p pt s = s := by
  intro s
  induction s with
  | nil => intro _; rfl
  | cons c rest ih =>
    intro h
    simp only [contiene_lista, Bool.or_eq_false_iff] at h
    rw [quitar_cons]
    simp only [h.1, if_false, Bool.false_eq_true]
    exact congrArg (c :: ·) (ih h.2)

/-- Removing a pattern from a string that starts with it removes that
leading occurrence and continues on the rest. -/
theorem quitar_head (p : Char) (pt s : List Char) :
    quitar_ocurrencias p pt ((p :: pt) ++ s) = quitar_ocurrencias p pt s := by
  rw [List.cons_append, quitar_cons]
  have hp : es_prefijo (p :: pt) (p :: (pt ++ s)) = true := by
    have h := es_prefijo_append (p :: pt) s
    rwa [List.cons_append] at h
  simp only [hp, if_true]
  rw [List.drop_left pt s]

/-- If a pattern whose first three characters are the triple-backtick
fence starts somewhere that a list `code` of length at least 3 also
starts (followed by anything), then `code` contains the fence. -/
theorem contiene_valla_of_prefijo_append {pat code tail : List Char}
    (hpat : pat.take 3 = "```".data) (h3 : 3 ≤ code.length)
    (hp : es_prefijo pat (code ++ tail) = true) :
    contiene_lista "```".data code = true := by
  have hplen : 3 ≤ pat.length := by
    have := congrArg List.length hpat
    rw [List.length_take] at this
    simp at this
    omega
  rw [es_prefijo_iff] at hp
  obtain ⟨t, ht⟩ := hp
  have htake := congrArg (fun l => List.take 3 l) ht
  simp only at htake
  rw [List.take_append_of_le_length hplen,
      List.take_append_of_le_length h3, hpat] at htake
  have hpre : code.take 3 <+: code := List.take_prefix 3 code
  rw [← htake] at hpre
  exact contiene_lista_of_prefijo ((es_prefijo_iff _ _).mpr hpre)

/-- Removing the python code fence from `code ++ closing-fence` changes
nothing when `code` itself contains no triple-backtick run. -/
theorem quitar_py_code_valla :
    ∀ code : List Char, contiene_lista "```".data code = false →
      quitar_ocurrencias '`' "``python".data (code ++ "```".data) =
        code ++ "```".data := by
  intro code
  induction code with
  | nil => intro _; decide
  | cons c rest ih =>
    intro h
    simp only [contiene_lista, Bool.or_eq_false_iff] at h
    rw [List.cons_append, quitar_cons]
    have hp : es_prefijo ('`' :: "``python".data) (c :: (rest ++ "```".data)) = false := by
      by_contra hcon
      rw [Bool.not_eq_false] at hcon
      rw [← List.cons_append] at hcon
      by_cases hlen : 3 ≤ (c :: rest).length
      · have : contiene_lista "```".data (c :: rest) = true :=
          contiene_valla_of_prefijo_append (by decide) hlen hcon
        rw [contiene_lista] at this
        simp only [Bool.or_eq_true] at this
        rcases this with h1 | h2
        · rw [h.1] at h1; exact Bool.false_ne_true h1
        · rw [h.2] at h2; exact Bool.false_ne_true h2
      · have hle := es_prefijo_length hcon
        simp only [List.length_append, List.length_cons] at hle hlen
        have : ("```".data).length = 3 := by decide
        have h9 : ('`' :: "``python".data).length = 9 := by decide
        omega
    simp only [hp, if_false, Bool.false_eq_true]
    exact congrArg (c :: ·) (ih h.2)

/-- Removing the plain triple-backtick fence from `code ++ fence`
yields `code` back when `code` contains no triple-backtick run (a
trailing run of one or two backticks in `code` merges with the fence,
but the removal still deletes exactly three backticks). -/
theorem quitar_valla_code_valla :
    ∀ code : List Char, contiene_lista "```".data code = false →
      quitar_ocurrencias '`' "``".data (code ++ "```".data) = code := by
  intro code
  induction code with
  | nil => intro _; decide
  | cons c rest ih =>
    intro h
    simp only [contiene_lista, Bool.or_eq_false_iff] at h
    by_cases hp : es_prefijo ('`' :: "``".data) ((c :: rest) ++ "```".data) = true
    · match rest, h with
      | [], _ =>
        have hc : ('`' == c) = true := by
          have := hp
          simp only [es_prefijo, Bool.and_eq_true] at this
          exact this.1
        rw [beq_iff_eq] at hc
        subst hc
        decide
      | [d], h =>
        have hcd : ('`' == c) = true ∧ ('`' == d) = true := by
          have := hp
          simp only [es_prefijo, Bool.and_eq_true] at this
          exact ⟨this.1, this.2.1⟩
        rw [beq_iff_eq] at hcd
        obtain ⟨hc, hd⟩ := hcd
        rw [beq_iff_eq] at hd
        subst hc; subst hd
        decide
      | d :: e :: resto, h =>
        have hlen : 3 ≤ (c :: d :: e :: resto).length := by
          simp [List.length_cons]
        have : contiene_lista "```".data (c :: d :: e :: resto) = true :=
          contiene_valla_of_prefijo_append (by decide) hlen hp
        rw [contiene_lista] at this
        simp only [Bool.or_eq_true] at this
        rcases this with h1 | h2
        · rw [h.1] at h1; exact absurd h1 Bool.false_ne_true
        · rw [h.2] at h2; exact absurd h2 Bool.false_ne_true
    · rw [List.cons_append, quitar_cons]
      rw [List.cons_append] at hp
      simp only [hp, if_false, Bool.false_eq_true]
      exact congrArg (c :: ·) (ih h.2)

/-- Containment is preserved by prepending any string. -/
theorem contiene_cola (a t pat : String) (h : contiene t pat = true) :
    contiene (a ++ t) pat = true := by
  show contiene_lista pat.data (a.data ++ t.data) = true
  exact contiene_lista_append_right a.data h

/-- A string contains its own prefix factor. -/
theorem contiene_inicio (pat c : String) : contiene (pat ++ c) pat = true := by
  show contiene_lista pat.data (pat.data ++ c.data) = true
  exact contiene_lista_of_prefijo (es_prefijo_append pat.data c.data)

/-! ## Claim theorems -/

/-- Claim C1 (code_bug evidence).  The spec states that every
report-generation tool invokes the hosted completion endpoint through
its prompt chain.  In the code, each of the four report tools builds
the chain `plantilla | StrOutputParser()` with no completion client in
it: no component of any of these chains is a call to the language
model.  The `ChatGroq` client of `app.py` (fixed model identifier,
temperature 0) appears only in the direct-question path. -/
theorem cadenas_informes_sin_llm :
    (cadena_informacion.all fun comp => !es_llamada_llm comp) = true ∧
    (cadena_resumen.all fun comp => !es_llamada_llm comp) = true ∧
    (cadena_grafico.all fun comp => !es_llamada_llm comp) = true ∧
    (cadena_insights.all fun comp => !es_llamada_llm comp) = true ∧
    llm_app = .llamada_llm "llama-3.3-70b-versatile" 0 ∧
    (cadena_pregunta_directa.any es_llamada_llm) = true := by
  exact ⟨rfl, rfl, rfl, rfl, rfl, rfl⟩

/-- Claim C2.  Any question whose lowercase form contains "correl" makes
`ejecutar_python_inteligente` return the directly computed correlation
answer (the markdown rendering of the numeric-only correlation matrix
of the dataset, inside the fixed header), and never hand anything to
the code evaluator. -/
theorem correl_dirige_a_correlacion (corr_md : DataFrame → String)
    (pregunta : String) (df : DataFrame)
    (h : contiene (minusculas pregunta) "correl" = true) :
    ejecutar_python_inteligente corr_md pregunta df =
      .correlacion ("\n# 🔎 Análisis de correlación\n\n" ++ corr_md df ++ "\n") ∧
    ∀ codigo, ejecutar_python_inteligente corr_md pregunta df ≠ .repl codigo := by
  unfold ejecutar_python_inteligente
  simp [h]

/-- Witness for C2 at the concrete question of the spec (rendered
without the apostrophe): the trigger "correl" occurs and the result is
the correlation answer. -/
theorem correl_dirige_a_correlacion_testigo :
    contiene (minusculas "Cual es la correlación entre precio y tamano") "correl" = true ∧
    ejecutar_python_inteligente corr_md0
        "Cual es la correlación entre precio y tamano" df0 =
      .correlacion ("\n# 🔎 Análisis de correlación\n\n" ++ corr_md0 df0 ++ "\n") := by
  refine ⟨by decide, ?_⟩
  exact (correl_dirige_a_correlacion corr_md0
    "Cual es la correlación entre precio y tamano" df0 (by decide)).1

/-- Claim C3.  Any question without the two trigger substrings is handed
verbatim (unchanged) to the AST-REPL evaluator bound to the dataset,
and the evaluator's result is returned to the caller. -/
theorem sin_trigger_repl_verbatim (repl_run : String → String)
    (corr_md : DataFrame → String) (pregunta : String) (df : DataFrame)
    (h1 : contiene (minusculas pregunta) "correl" = false)
    (h2 : contiene (minusculas pregunta) "relación" = false) :
    ejecutar_python_inteligente corr_md pregunta df = .repl pregunta ∧
    responder_python repl_run corr_md pregunta df = repl_run pregunta := by
  unfold responder_python ejecutar_python_inteligente
  simp [h1, h2]

/-- Witness for C3 at the spec's example: the question `2+2` carries no
trigger substring, is passed verbatim to the evaluator, and the
evaluator's result (4) is returned. -/
theorem sin_trigger_repl_verbatim_testigo :
    contiene (minusculas "2+2") "correl" = false ∧
    contiene (minusculas "2+2") "relación" = false ∧
    responder_python repl0 corr_md0 "2+2" df0 = "4" := by
  refine ⟨by decide, by decide, ?_⟩
  rw [(sin_trigger_repl_verbatim repl0 corr_md0 "2+2" df0 (by decide) (by decide)).2]
  decide

/-- Claim C4 (counterexample).  The claim that for ANY code text wrapped in
triple-backtick fences the stripped result equals the inner code
unchanged is false: if the inner code itself contains a
triple-backtick run, the stripping also deletes that run. -/
theorem limpiar_script_no_identidad :
    ¬ (limpiar_script ("```python".data ++ ("a```b".data ++ "```".data)) =
        "a```b".data) := by decide

/-- Claim C4 (amended).  Stripping the fence markers is the only
transformation `generar_grafico` applies to the completion text before
execution, and for inner code with no triple-backtick run the
stripping of a python-tagged fence wrapper returns the inner code
unchanged; for the untagged wrapper the same holds provided the fenced
text contains no occurrence of the python fence marker. -/
theorem limpiar_script_vallas (texto : String) (df : DataFrame)
    (code : List Char)
    (h : contiene_lista "```".data code = false) :
    (generar_grafico texto df).1.script = limpiar_script texto.data ∧
    limpiar_script (("```python".data ++ (code ++ "```".data))) = code ∧
    (contiene_lista "```python".data ("```".data ++ (code ++ "```".data)) = false →
      limpiar_script ("```".data ++ (code ++ "```".data)) = code) := by
  refine ⟨rfl, ?_, ?_⟩
  · show quitar_ocurrencias '`' "``".data
      (quitar_ocurrencias '`' "``python".data
        (('`' :: "``python".data) ++ (code ++ "```".data))) = code
    rw [quitar_head, quitar_py_code_valla code h, quitar_valla_code_valla code h]
  · intro hpy
    show quitar_ocurrencias '`' "``".data
      (quitar_ocurrencias '`' "``python".data
        (('`' :: "``".data) ++ (code ++ "```".data))) = code
    rw [quitar_sin_ocurrencia '`' "``python".data _ hpy,
        quitar_head, quitar_valla_code_valla code h]

/-- Witness for C4 (amended) at a concrete chart snippet free of
backticks: both fence wrappers strip back to the inner code. -/
theorem limpiar_script_vallas_testigo :
    contiene_lista "```".data "plt.plot(df)".data = false ∧
    limpiar_script ("```python".data ++ ("plt.plot(df)".data ++ "```".data)) =
      "plt.plot(df)".data ∧
    limpiar_script ("```".data ++ ("plt.plot(df)".data ++ "```".data)) =
      "plt.plot(df)".data := by
  refine ⟨by decide, ?_, ?_⟩
  · exact (limpiar_script_vallas "x" df0 "plt.plot(df)".data (by decide)).2.1
  · exact (limpiar_script_vallas "x" df0 "plt.plot(df)".data (by decide)).2.2
      (by decide)

/-- Claim C5.  Every `exec` call performed by `generar_grafico` receives a
globals dictionary with exactly three bindings: the dataset under
"df", the plotting module under "plt" and the statistical-styling
module under "sns". -/
theorem entorno_exec_tres_nombres (texto : String) (df : DataFrame) :
    (generar_grafico texto df).1.entorno =
      [("df", Ligado.dataset df), ("plt", Ligado.modulo_plt),
       ("sns", Ligado.modulo_sns)] ∧
    ((generar_grafico texto df).1.entorno.map Prod.fst) = ["df", "plt", "sns"] ∧
    (generar_grafico texto df).1.entorno.length = 3 ∧
    ((generar_grafico texto df).1.entorno.map Prod.fst).Nodup := by
  refine ⟨rfl, rfl, rfl, ?_⟩
  show (["df", "plt", "sns"] : List String).Nodup
  decide

/-- Claim C6.  For every dataset, the report of `informacion_df` states the
dataset's own row and column counts (taken from its shape) in the
Resumen General table. -/
theorem informe_general_dimensiones (invocar : Cadena → Vinculos → String)
    (pregunta : String) (df : DataFrame) :
    contiene (informacion_df invocar pregunta df).1
      ("| Filas | " ++ toString df.filas.length ++ " |") = true ∧
    contiene (informacion_df invocar pregunta df).1
      ("| Columnas | " ++ toString df.columnas.length ++ " |") = true := by
  constructor
  · exact contiene_cola _ _ _ (contiene_inicio _ _)
  · apply contiene_cola
    apply contiene_cola
    rw [String.append_assoc]
    apply contiene_cola
    exact contiene_inicio _ _

/-- Claim C7.  The three report tools never mutate the dataset: the
dataframe observable after any invocation is the one before it. -/
theorem informes_no_mutan (invocar : Cadena → Vinculos → String)
    (describe_texto : DataFrame → String) (pregunta : String)
    (df : DataFrame) :
    (informacion_df invocar pregunta df).2 = df ∧
    (resumen_estadistico invocar describe_texto pregunta df).2 = df ∧
    (generar_insights invocar pregunta df).2 = df :=
  ⟨rfl, rfl, rfl⟩

/-- Claim C8 (counterexample).  The program does not define five prompt
templates: the `PromptTemplate` construction sites number four. -/
theorem plantillas_no_son_cinco : ¬ (plantillas.length = 5) := by decide

/-- Claim C8 (amended).  The program defines exactly four distinct static
prompt templates, one per LLM-backed analytical tool, while the
direct-question path contains no template component and builds its
prompt text inline. -/
theorem cuatro_plantillas_distintas :
    plantillas.length = 4 ∧
    plantillas.Pairwise (fun p q => p ≠ q) ∧
    cadena_informacion = [.prompt plantilla_informacion, .salida_str] ∧
    cadena_resumen = [.prompt plantilla_resumen, .salida_str] ∧
    cadena_grafico = [.prompt plantilla_grafico, .salida_str] ∧
    cadena_insights = [.prompt plantilla_insights, .salida_str] ∧
    (cadena_pregunta_directa.all fun comp => !es_prompt comp) = true ∧
    prompt_directo ["precio"] "hola" =
      "Eres un analista experto. \n                    Responde la siguiente pregunta usando este DataFrame:\n                    Columnas: " ++
        toString ["precio"] ++ "\n                    Pregunta: " ++ "hola" := by
  refine ⟨rfl, ?_, rfl, rfl, rfl, rfl, rfl, rfl⟩
  decide

/-- Claim C9.  Looking up any registered name in the tool registry returns
exactly the handler registered under it; looking up an unregistered
name yields the not-found result and the button handler then performs
no action at all (no tool runs, nothing is surfaced). -/
theorem registro_busqueda (par : String × IdHerramienta)
    (hpar : par ∈ tool_dict) (nombre : String)
    (hn : nombre ∉ tool_dict.map Prod.fst) (pregunta : String) :
    buscar tool_dict par.1 = some par.2 ∧
    buscar tool_dict nombre = none ∧
    manejar_boton nombre pregunta = [] := by
  have hb : buscar tool_dict nombre = none := by
    simp only [tool_dict, List.map_cons, List.map_nil, List.mem_cons,
      List.not_mem_nil, or_false, not_or] at hn
    obtain ⟨n1, n2, n3, n4, n5⟩ := hn
    have e1 : ("Informaciones DF" == nombre) = false :=
      beq_eq_false_iff_ne.mpr (Ne.symm n1)
    have e2 : ("Resumen Estadístico" == nombre) = false :=
      beq_eq_false_iff_ne.mpr (Ne.symm n2)
    have e3 : ("Generar Gráfico" == nombre) = false :=
      beq_eq_false_iff_ne.mpr (Ne.symm n3)
    have e4 : ("Herramienta Python" == nombre) = false :=
      beq_eq_false_iff_ne.mpr (Ne.symm n4)
    have e5 : ("Informe de Insights" == nombre) = false :=
      beq_eq_false_iff_ne.mpr (Ne.symm n5)
    simp [buscar, tool_dict, List.find?, e1, e2, e3, e4, e5]
  refine ⟨?_, hb, ?_⟩
  · fin_cases hpar <;> rfl
  · rw [manejar_boton, hb]

/-- Witness for C9: the registered name "Informaciones DF" resolves to
its own handler, and the unregistered name "Herramienta SQL" resolves
to the not-found result with a no-op dispatch. -/
theorem registro_busqueda_testigo :
    buscar tool_dict "Informaciones DF" = some IdHerramienta.informaciones_df ∧
    buscar tool_dict "Herramienta SQL" = none ∧
    manejar_boton "Herramienta SQL" "pregunta" = [] :=
  registro_busqueda ("Informaciones DF", IdHerramienta.informaciones_df)
    (by decide) "Herramienta SQL" (by decide) "pregunta"

/-- Claim C10.  Any question whose lowercase form contains "relación" — even
with no occurrence of "correl" — also routes to the direct correlation
computation and never reaches the code evaluator. -/
theorem relacion_dirige_a_correlacion (corr_md : DataFrame → String)
    (pregunta : String) (df : DataFrame)
    (h : contiene (minusculas pregunta) "relación" = true) :
    ejecutar_python_inteligente corr_md pregunta df =
      .correlacion ("\n# 🔎 Análisis de correlación\n\n" ++ corr_md df ++ "\n") ∧
    ∀ codigo, ejecutar_python_inteligente corr_md pregunta df ≠ .repl codigo := by
  unfold ejecutar_python_inteligente
  simp [h]

/-- Witness for C10 at an uppercase question that contains "RELACIÓN"
but no occurrence of "correl". -/
theorem relacion_dirige_a_correlacion_testigo :
    contiene (minusculas "RELACIÓN entre variables") "correl" = false ∧
    contiene (minusculas "RELACIÓN entre variables") "relación" = true ∧
    ejecutar_python_inteligente corr_md0 "RELACIÓN entre variables" df0 =
      .correlacion ("\n# 🔎 Análisis de correlación\n\n" ++ corr_md0 df0 ++ "\n") := by
  refine ⟨by decide, by decide, ?_⟩
  exact (relacion_dirige_a_correlacion corr_md0 "RELACIÓN entre variables" df0
    (by decide)).1

end AsistenteDatos
